import Mathlib

/-!
Verification of the identifier-resolution core of the clickup-mcp repository.

The development shallowly embeds, over lists of characters:
  * src/clickup_mcp/utils.py : parse_task_id (reference parser);
  * src/clickup_mcp/tools.py : TaskTools._resolve_task_id (lookup strategy
    chain) and TaskTools.get_task (error wrapping);
  * src/clickup_mcp/client.py : ClickUpClient.get_task (query-parameter
    construction for the direct and custom-id lookups).

Python strings are modelled as List Char.  Unicode-specific behaviour of
str.strip / str.lower is modelled for the ASCII range, which covers every
string the parser inspects (scheme literals, '#', '-', '/', pattern keys).
The network boundary (ClickUpClient._request and ClickUpClient.search_tasks)
is modelled as an oracle, and the resolver is instrumented to return the
list of collaborator invocations it performs, in order.
-/

namespace ClickupMCP

abbrev Str := List Char

/-- Character list of a Lean string literal. -/
def strL (s : String) : Str := s.data

/-- Whitespace characters removed by Python str.strip (ASCII range). -/
def pyIsSpace (c : Char) : Bool :=
  c = ' ' || c = '\t' || c = '\n' || c = '\x0d' || c = '\x0b' || c = '\x0c'

/-- Python str.strip: remove leading and trailing whitespace. -/
def pyStrip (s : Str) : Str :=
  ((s.dropWhile pyIsSpace).reverse.dropWhile pyIsSpace).reverse

/-- Python str.startswith for a single literal. -/
def startsWithS (p s : Str) : Bool := List.isPrefixOf p s

/-- Python str.split(sep) for a one-character separator: empty parts kept,
splitting the empty string yields one empty part. -/
def splitOnChar (sep : Char) : Str → List Str
  | [] => [[]]
  | c :: rest =>
    if c = sep then [] :: splitOnChar sep rest
    else
      match splitOnChar sep rest with
      | [] => [[c]]
      | s :: ss => (c :: s) :: ss

/-- Python str.lower, modelled on the ASCII range. -/
def toLowerS (s : Str) : Str := s.map Char.toLower

/-- Character class of the regex [a-zA-Z0-9-] in parse_task_id. -/
def isIdChar (c : Char) : Bool := c.isAlpha || c.isDigit || c = '-'

/-- re.search for the pattern /t/([a-zA-Z0-9-]+): leftmost position where
"/t/" is followed by at least one id character; the group is the maximal
run of id characters after that "/t/". -/
def reSearchT : Str → Option Str
  | [] => none
  | c :: rest =>
    match c, rest with
    | '/', 't' :: '/' :: d :: ds =>
      if isIdChar d then some ((d :: ds).takeWhile isIdChar)
      else reSearchT rest
    | _, _ => reSearchT rest

/-- C0 control characters and space, stripped from the front of a URL by
urllib.parse.urlsplit. -/
def isC0OrSpace (c : Char) : Bool := c.toNat ≤ 32

/-- Model of ParseResult.path for urllib.parse.urlparse, restricted to the
http/https inputs on which parse_task_id uses it: strip leading
C0-control-or-space characters, delete tab/CR/LF everywhere, drop the
scheme (up to the first ':'), drop the "//netloc" part (netloc ends at the
first of '/', '?', '#'), cut the remainder at the first of '?' or '#', and
finally remove any ";params" suffix of the last path segment
(urlparse._splitparams). -/
def splitParams (p : Str) : Str :=
  if p.contains ';' then
    if p.contains '/' then
      let suf := (p.reverse.takeWhile (fun c => c != '/')).reverse
      if suf.contains ';' then
        p.take (p.length - suf.length) ++ suf.takeWhile (fun c => c != ';')
      else p
    else p.takeWhile (fun c => c != ';')
  else p

def urlsplitPath (url : Str) : Str :=
  let u1 := url.dropWhile isC0OrSpace
  let u2 := u1.filter (fun c => !(c = '\t' || c = '\n' || c = '\x0d'))
  let afterColon := (u2.dropWhile (fun c => c != ':')).drop 1
  let afterNetloc :=
    if startsWithS (strL "//") afterColon then
      (afterColon.drop 2).dropWhile (fun c => !(c = '/' || c = '?' || c = '#'))
    else afterColon
  splitParams (afterNetloc.takeWhile (fun c => !(c = '?' || c = '#')))

/-- The list comprehension [part for part in parsed.path.split("/") if part]
applied to the modelled URL path. -/
def urlPathParts (s : Str) : List Str :=
  (splitOnChar '/' (urlsplitPath s)).filter (fun p => !p.isEmpty)

/-- Candidate-id extraction of utils.parse_task_id: the strip, the URL
branch (with its two segment cases and the regex fallback) and the '#'
branch, before the custom-pattern check. -/
def extract_candidate (task_ref : Str) : Str :=
  let t := pyStrip task_ref
  if startsWithS (strL "http://") t = true ∨ startsWithS (strL "https://") t = true then
    let parts := urlPathParts t
    if 3 ≤ parts.length ∧ parts.head? = some (strL "t") then parts.getLastD t
    else if 2 ≤ parts.length ∧ parts.head? = some (strL "t") then parts.getD 1 t
    else
      match reSearchT (urlsplitPath t) with
      | some m => m
      | none => t
  else if startsWithS (strL "#") t = true then t.drop 1
  else t

/-- The id_patterns mapping (dict prefix -> label), as an association list
in insertion order. -/
abbrev IdTable := List (Str × Str)

/-- Python (prefix in id_patterns). -/
def hasKey (t : IdTable) (k : Str) : Bool := t.any (fun p => p.1 == k)

/-- utils.parse_task_id: returns (task_id, custom_id_type).  The custom
check runs when the table argument is truthy (supplied and non-empty) and
the extracted candidate contains '-'; the prefix before the first '-' is
lowercased and looked up among the table keys. -/
def parse_task_id (task_ref : Str) (id_patterns : Option IdTable) :
    Str × Option Str :=
  let extracted := extract_candidate task_ref
  match id_patterns with
  | some pats =>
    if pats ≠ [] ∧ extracted.contains '-' = true then
      let pre := toLowerS (extracted.takeWhile (fun c => c != '-'))
      if hasKey pats pre = true then (extracted, some pre) else (extracted, none)
    else (extracted, none)
  | none => (extracted, none)

/-- ClickUpAPIError: message plus optional HTTP status code. -/
structure APIError where
  message : Str
  status_code : Option Int
deriving DecidableEq

/-- The slice of the Task model the resolver inspects (models.Task always
has a custom_id attribute, Optional[str], so the hasattr guard in
_resolve_task_id is always true). -/
structure Task where
  id : Str
  custom_id : Option Str
deriving DecidableEq

deriving instance DecidableEq for Except

/-- The slice of config.Config the resolver reads. -/
structure Config where
  default_workspace_id : Option Str
  default_team_id : Option Str
  id_patterns : IdTable

/-- Python (a or b) on Optional[str]: a unless a is None or empty. -/
def pyOrStr (a b : Option Str) : Option Str :=
  match a with
  | some s => if s ≠ [] then some s else b
  | none => b

/-- Python truthiness of an Optional[str]. -/
def optTruthy : Option Str → Bool
  | none => false
  | some s => !s.isEmpty

/-- Query-parameter construction of ClickUpClient.get_task: insertion-order
dict with include_subtasks, then custom_task_ids, then (only when
custom_task_ids is set and team_id is truthy) team_id. -/
def get_task_params (include_subtasks custom_task_ids : Bool)
    (team_id : Option Str) : List (Str × Str) :=
  (if include_subtasks then [(strL "include_subtasks", strL "true")] else [])
    ++ (if custom_task_ids then
          (strL "custom_task_ids", strL "true") ::
            (match team_id with
             | some t => if t ≠ [] then [(strL "team_id", t)] else []
             | none => [])
        else [])

/-- Oracle for the network boundary: request_get_task models a GET of
/task/{task_id} through ClickUpClient._request with the given query
parameters; search_tasks models ClickUpClient.search_tasks(query=...).
Either raises ClickUpAPIError (.error) or returns parsed data (.ok). -/
structure Backend where
  request_get_task : Str → List (Str × Str) → Except APIError Task
  search_tasks : Str → Except APIError (List Task)

/-- One collaborator invocation performed by the resolver. -/
inductive Call where
  | getTaskReq (task_id : Str) (params : List (Str × Str))
  | searchReq (query : Str)
deriving DecidableEq

/-- ClickUpClient.get_task: build the params and perform the request. -/
def clientGetTask (be : Backend) (task_id : Str)
    (include_subtasks custom_task_ids : Bool) (team_id : Option Str) :
    Except APIError Task :=
  be.request_get_task task_id
    (get_task_params include_subtasks custom_task_ids team_id)

/-- TaskTools._resolve_task_id, instrumented with the ordered list of
collaborator invocations it performs.  Mirrors tools.py lines 599-638:
parse, direct lookup, conditional custom-id lookup (Python truthiness of
custom_type, or '-' in the parsed id), search fallback whose empty-result
"not found" error is caught by the inner handler and replaced by the most
relevant prior error (custom_error when custom_type is truthy, else
direct_error). -/
def resolve_task_id (cfg : Config) (be : Backend) (task_id : Str)
    (include_subtasks : Bool) : Except APIError Task × List Call :=
  let pr := parse_task_id task_id (some cfg.id_patterns)
  let parsed_id := pr.1
  let custom_type := pr.2
  let dps := get_task_params include_subtasks false none
  match be.request_get_task parsed_id dps with
  | .ok t => (.ok t, [.getTaskReq parsed_id dps])
  | .error direct_error =>
    if optTruthy custom_type || parsed_id.contains '-' then
      let team_id := pyOrStr cfg.default_team_id cfg.default_workspace_id
      let cps := get_task_params include_subtasks true team_id
      match be.request_get_task parsed_id cps with
      | .ok t => (.ok t, [.getTaskReq parsed_id dps, .getTaskReq parsed_id cps])
      | .error custom_error =>
        let tr := [Call.getTaskReq parsed_id dps, .getTaskReq parsed_id cps,
                   .searchReq task_id]
        match be.search_tasks task_id with
        | .error _ =>
          (.error (if optTruthy custom_type then custom_error else direct_error), tr)
        | .ok [] =>
          (.error (if optTruthy custom_type then custom_error else direct_error), tr)
        | .ok (t0 :: rest) =>
          match (t0 :: rest).find? (fun t => t.custom_id == some task_id) with
          | some t => (.ok t, tr)
          | none => (.ok t0, tr)
    else (.error direct_error, [.getTaskReq parsed_id dps])

/-- Result of the get_task tool: either the error record
{"error": "Failed to get task '<ref>': <message>"} or the task-detail
record built from the resolved task (whose field-by-field construction is
irrelevant to resolution and abstracted as the resolved task). -/
inductive GetTaskToolResult where
  | errDict (msg : Str)
  | taskDict (t : Task)
deriving DecidableEq

/-- TaskTools.get_task: resolve, catching ClickUpAPIError into the error
record; str(e) of a ClickUpAPIError is its message. -/
def tools_get_task (cfg : Config) (be : Backend) (task_id : Str)
    (include_subtasks : Bool) : GetTaskToolResult :=
  match (resolve_task_id cfg be task_id include_subtasks).1 with
  | .error e =>
    .errDict (strL "Failed to get task '" ++ task_id ++ strL "': " ++ e.message)
  | .ok t => .taskDict t

/-! ## Helper lemmas -/

lemma dropWhile_eq_self_of_all {f : Char → Bool} {l : Str}
    (h : ∀ c ∈ l, f c = false) : l.dropWhile f = l := by
  cases l with
  | nil => rfl
  | cons a l => simp [List.dropWhile_cons, h a (by simp)]

/-- Stripping whitespace preserves a whitespace-free nonempty leading
literal such as "http://". -/
lemma isPrefixOf_pyStrip (p s : Str) (hne : p ≠ [])
    (hall : ∀ c ∈ p, pyIsSpace c = false)
    (h : List.isPrefixOf p s = true) :
    List.isPrefixOf p (pyStrip s) = true := by
  obtain ⟨t, rfl⟩ := List.isPrefixOf_iff_prefix.mp h
  cases p with
  | nil => exact absurd rfl hne
  | cons a p2 =>
    have ha : pyIsSpace a = false := hall a (by simp)
    rw [List.isPrefixOf_iff_prefix]
    unfold pyStrip
    rw [List.cons_append, List.dropWhile_cons, ha]
    simp only [Bool.false_eq_true, if_false]
    have hrev : (a :: (p2 ++ t)).reverse = t.reverse ++ (a :: p2).reverse := by
      simp [List.reverse_cons, List.reverse_append, List.append_assoc]
    rw [hrev, List.dropWhile_append]
    by_cases hE : (List.dropWhile pyIsSpace t.reverse).isEmpty = true
    · rw [if_pos hE,
        dropWhile_eq_self_of_all (fun c hc => hall c (by
          rw [List.mem_reverse] at hc; exact hc)),
        List.reverse_reverse]
    · rw [if_neg hE, List.reverse_append, List.reverse_reverse]
      exact List.prefix_append _ _

/-- The candidate component of parse_task_id is candidate extraction,
independently of the pattern table. -/
lemma parse_fst (s : Str) (pats : Option IdTable) :
    (parse_task_id s pats).1 = extract_candidate s := by
  unfold parse_task_id
  cases pats with
  | none => rfl
  | some t =>
    dsimp only
    split
    · split <;> rfl
    · rfl

/-! ## Concrete fixtures used by witnesses and counterexamples -/

/-- Error returned by the failing direct lookup fixture. -/
def eDir : APIError := ⟨strL "API error: 404 - direct not found", some 404⟩

/-- Error returned by the failing custom-id lookup fixture. -/
def eCus : APIError := ⟨strL "API error: 404 - custom not found", some 404⟩

/-- Config with the pattern table {gh: GitHub Issues} and no default
team or workspace. -/
def cfgGH : Config := ⟨none, none, [(strL "gh", strL "GitHub Issues")]⟩

/-- Backend on which every task fetch fails (with distinct errors for the
direct and the custom-id form of the request) and search finds nothing. -/
def beFail : Backend :=
  ⟨fun _ ps =>
      if (List.lookup (strL "custom_task_ids") ps).isSome then .error eCus
      else .error eDir,
   fun _ => .ok []⟩

/-! ## Claim theorems -/

/-- C3: for a reference whose parsed candidate has no '-' and a null
custom tag, a failing direct lookup is surfaced immediately: the result is
the direct-lookup error and the trace holds only the direct request
(neither the custom-id lookup nor the search is invoked). -/
theorem C3_plain_id_direct_only (cfg : Config) (be : Backend) (ref : Str)
    (inc : Bool) (e : APIError)
    (hdash : (parse_task_id ref (some cfg.id_patterns)).1.contains '-' = false)
    (hnull : (parse_task_id ref (some cfg.id_patterns)).2 = none)
    (hD : be.request_get_task (parse_task_id ref (some cfg.id_patterns)).1
        (get_task_params inc false none) = .error e) :
    resolve_task_id cfg be ref inc =
      (.error e,
       [.getTaskReq (parse_task_id ref (some cfg.id_patterns)).1
          (get_task_params inc false none)]) := by
  have hdash2 : ¬ ('-' ∈ (parse_task_id ref (some cfg.id_patterns)).1) := by
    simpa using hdash
  unfold resolve_task_id
  dsimp only
  rw [hD]
  simp [hnull, hdash2, optTruthy]

/-- C3 witness: a plain reference on the all-failing backend. -/
theorem C3_plain_id_direct_only_w :
    resolve_task_id cfgGH beFail (strL "abc123") false =
      (.error eDir,
       [.getTaskReq (strL "abc123") (get_task_params false false none)]) := by
  have h := C3_plain_id_direct_only cfgGH beFail (strL "abc123") false eDir
    (by decide) (by decide) (by rfl)
  rw [h]
  decide

/-- C6: for every input starting with http:// or https:// whose URL path
splits into non-empty segments with first segment "t", the parser's
candidate is the last segment when there are at least 3 segments, and the
second segment when there are exactly 2. -/
theorem C6_url_candidate (s : Str)
    (h : startsWithS (strL "http://") s = true ∨
         startsWithS (strL "https://") s = true) :
    (3 ≤ (urlPathParts (pyStrip s)).length →
      (urlPathParts (pyStrip s)).head? = some (strL "t") →
      extract_candidate s = (urlPathParts (pyStrip s)).getLastD (pyStrip s))
    ∧ ((urlPathParts (pyStrip s)).length = 2 →
      (urlPathParts (pyStrip s)).head? = some (strL "t") →
      extract_candidate s = (urlPathParts (pyStrip s)).getD 1 (pyStrip s)) := by
  have h2 : startsWithS (strL "http://") (pyStrip s) = true ∨
      startsWithS (strL "https://") (pyStrip s) = true := by
    cases h with
    | inl h => exact Or.inl (isPrefixOf_pyStrip _ _ (by decide) (by decide) h)
    | inr h => exact Or.inr (isPrefixOf_pyStrip _ _ (by decide) (by decide) h)
  constructor
  · intro h3 ht
    unfold extract_candidate
    rw [if_pos h2, if_pos ⟨h3, ht⟩]
  · intro hlen ht
    unfold extract_candidate
    rw [if_pos h2, if_neg (by rw [hlen]; rintro ⟨h3, -⟩; omega),
      if_pos ⟨by omega, ht⟩]

/-- C6 witness: the two concrete URLs of the spec. -/
theorem C6_url_candidate_w :
    extract_candidate (strL "https://app.clickup.com/t/3647378/GH-3761") =
      strL "GH-3761"
    ∧ extract_candidate (strL "https://app.clickup.com/t/abc123") =
      strL "abc123" := by
  constructor
  · have h := (C6_url_candidate (strL "https://app.clickup.com/t/3647378/GH-3761")
      (Or.inr (by decide))).1 (by decide) (by decide)
    rw [h]; decide
  · have h := (C6_url_candidate (strL "https://app.clickup.com/t/abc123")
      (Or.inr (by decide))).2 (by decide) (by decide)
    rw [h]; decide

/-- C7: the candidate of parse_task_id is the extraction result with its
original casing, independent of the table; when the candidate contains '-'
and a (truthy) table was supplied, the tag is the lowercased part before
the first '-' exactly when that lowercased string is a table key, and null
otherwise. -/
theorem C7_custom_tag (s : Str) (pats : IdTable) :
    (parse_task_id s (some pats)).1 = extract_candidate s
    ∧ ((extract_candidate s).contains '-' = true → pats ≠ [] →
        (((parse_task_id s (some pats)).2 =
            some (toLowerS ((extract_candidate s).takeWhile (fun c => c != '-'))) ↔
          hasKey pats
            (toLowerS ((extract_candidate s).takeWhile (fun c => c != '-'))) = true)
        ∧ (hasKey pats
            (toLowerS ((extract_candidate s).takeWhile (fun c => c != '-'))) = false →
          (parse_task_id s (some pats)).2 = none)))
    ∧ ((extract_candidate s).contains '-' = false →
        (parse_task_id s (some pats)).2 = none) := by
  refine ⟨parse_fst s (some pats), ?_, ?_⟩
  · intro hdash hpats
    unfold parse_task_id
    dsimp only
    rw [if_pos ⟨hpats, hdash⟩]
    constructor
    · by_cases hk : hasKey pats
        (toLowerS ((extract_candidate s).takeWhile (fun c => c != '-'))) = true
      · rw [if_pos hk]; simp [hk]
      · rw [if_neg hk]; simp [hk]
    · intro hk
      rw [if_neg (by rw [hk]; exact fun hc => nomatch hc)]
  · intro hdash
    unfold parse_task_id
    dsimp only
    rw [if_neg (by rw [hdash]; rintro ⟨-, hc⟩; exact nomatch hc)]

/-- C7 witness: GH-123 against the table with key "gh" keeps its casing
and is tagged "gh"; cs-1234 is untagged. -/
theorem C7_custom_tag_w :
    (parse_task_id (strL "GH-123") (some [(strL "gh", strL "github")])).2 =
      some (strL "gh")
    ∧ (parse_task_id (strL "cs-1234") (some [(strL "gh", strL "github")])).2 =
      none := by
  constructor
  · have h := ((C7_custom_tag (strL "GH-123") [(strL "gh", strL "github")]).2.1
      (by decide) (by decide)).1.mpr (by decide)
    rw [h]; decide
  · exact ((C7_custom_tag (strL "cs-1234") [(strL "gh", strL "github")]).2.1
      (by decide) (by decide)).2 (by decide)

/-- C8 counterexample: the claim that re-parsing the extracted candidate is
idempotent for every input fails at "##123", whose candidate "#123"
re-parses to "123". -/
theorem C8_cex :
    (parse_task_id ((parse_task_id (strL "##123") none).1) none).1 ≠
      (parse_task_id (strL "##123") none).1 := by decide

/-- C8 (amended): re-parsing the candidate yields the same candidate
whenever the candidate is already stripped and does not itself start with
"#", "http://" or "https://" (a plain id); inputs whose candidate again
looks like one of the recognized forms are stripped further. -/
theorem C8_roundtrip (s : Str) (pats : Option IdTable)
    (hstrip : pyStrip ((parse_task_id s pats).1) = (parse_task_id s pats).1)
    (h1 : startsWithS (strL "http://") ((parse_task_id s pats).1) = false)
    (h2 : startsWithS (strL "https://") ((parse_task_id s pats).1) = false)
    (h3 : startsWithS (strL "#") ((parse_task_id s pats).1) = false) :
    (parse_task_id ((parse_task_id s pats).1) pats).1 =
      (parse_task_id s pats).1 := by
  rw [parse_fst]
  unfold extract_candidate
  rw [hstrip]
  simp [h1, h2, h3]

/-- C8 witness: the round trip on "#123". -/
theorem C8_roundtrip_w :
    (parse_task_id ((parse_task_id (strL "#123") none).1) none).1 =
      (parse_task_id (strL "#123") none).1 :=
  C8_roundtrip (strL "#123") none (by decide) (by decide) (by decide) (by decide)

/-- Config whose pattern table has an empty-string key (reachable: the
id_patterns dict comes from the user's config file). -/
def cfgEmptyKey : Config := ⟨none, none, [([], strL "weird")]⟩

/-- Tasks returned by the search fixture. -/
def taskX1 : Task := ⟨strL "x1", some (strL "gh-123")⟩

def taskX2 : Task := ⟨strL "x2", some (strL "other")⟩

/-- Backend on which every task fetch fails and search returns taskX2
before taskX1 (the exact custom_id match is not first). -/
def beSearch2 : Backend :=
  ⟨fun _ _ => .error eDir, fun _ => .ok [taskX2, taskX1]⟩

/-- The direct-lookup invocation of a resolution. -/
def directCall (cfg : Config) (ref : Str) (inc : Bool) : Call :=
  .getTaskReq (parse_task_id ref (some cfg.id_patterns)).1
    (get_task_params inc false none)

/-- The custom-id invocation of a resolution, scoped by the configured
team id, else workspace id. -/
def customCall (cfg : Config) (ref : Str) (inc : Bool) : Call :=
  .getTaskReq (parse_task_id ref (some cfg.id_patterns)).1
    (get_task_params inc true (pyOrStr cfg.default_team_id cfg.default_workspace_id))

/-- The search-fallback invocation of a resolution. -/
def searchCall (ref : Str) : Call := .searchReq ref

/-- C1 counterexample: resolving "ab-12" (candidate contains '-' but the
prefix "ab" is not in the table), the custom-id strategy is attempted and
fails, the search fallback returns no record, yet the error surfaced is
the direct-lookup error, not the custom-id error. -/
theorem C1_cex :
    (resolve_task_id cfgGH beFail (strL "ab-12") false).2 =
      [.getTaskReq (strL "ab-12") (get_task_params false false none),
       .getTaskReq (strL "ab-12") (get_task_params false true none),
       .searchReq (strL "ab-12")]
    ∧ beFail.request_get_task (strL "ab-12") (get_task_params false true none) =
        .error eCus
    ∧ beFail.search_tasks (strL "ab-12") = .ok []
    ∧ (resolve_task_id cfgGH beFail (strL "ab-12") false).1 = .error eDir
    ∧ eDir ≠ eCus := by
  exact ⟨by decide, by decide, by decide, by decide, by decide⟩

/-- C1 (amended): when the custom-id attempt and the search fallback both
fail to produce a record, the surfaced error is the custom-id error only
when the parser recognized a truthy (nonempty) custom prefix; when the
attempt was made only because the candidate contained '-', the
direct-lookup error is surfaced. -/
theorem C1_custom_error_surfaced (cfg : Config) (be : Backend) (ref : Str)
    (inc : Bool) (eD eC : APIError)
    (hD : be.request_get_task (parse_task_id ref (some cfg.id_patterns)).1
        (get_task_params inc false none) = .error eD)
    (hC : be.request_get_task (parse_task_id ref (some cfg.id_patterns)).1
        (get_task_params inc true
          (pyOrStr cfg.default_team_id cfg.default_workspace_id)) = .error eC)
    (hS : (∃ es, be.search_tasks ref = .error es) ∨ be.search_tasks ref = .ok [])
    (hcond : (optTruthy (parse_task_id ref (some cfg.id_patterns)).2 ||
        (parse_task_id ref (some cfg.id_patterns)).1.contains '-') = true) :
    (resolve_task_id cfg be ref inc).1 =
      .error (if optTruthy (parse_task_id ref (some cfg.id_patterns)).2 = true
              then eC else eD) := by
  unfold resolve_task_id
  dsimp only
  rw [hD]
  simp only [hcond, if_true]
  rw [hC]
  rcases hS with ⟨es, hs⟩ | hs <;> rw [hs]

/-- C1 witness: with a recognized prefix, the custom-id error is surfaced. -/
theorem C1_custom_error_surfaced_w :
    (resolve_task_id cfgGH beFail (strL "gh-9") false).1 = .error eCus := by
  have h := C1_custom_error_surfaced cfgGH beFail (strL "gh-9") false eDir eCus
    (by rfl) (by rfl) (Or.inr rfl) (by decide)
  rw [h]
  decide

/-- C2 counterexample: with the (pathological but configurable) pattern
table {"": "weird"}, the parser recognizes the empty custom prefix of the
reference "-1" (the tag is non-null), direct and custom lookups fail and
the search is empty, yet Python truthiness of the empty tag makes the
chain surface the direct-lookup error instead of the custom-id error. -/
theorem C2_cex :
    (parse_task_id (strL "-1") (some cfgEmptyKey.id_patterns)).2 = some []
    ∧ (resolve_task_id cfgEmptyKey beFail (strL "-1") false).2 =
        [.getTaskReq (strL "-1") (get_task_params false false none),
         .getTaskReq (strL "-1") (get_task_params false true none),
         .searchReq (strL "-1")]
    ∧ beFail.search_tasks (strL "-1") = .ok []
    ∧ (resolve_task_id cfgEmptyKey beFail (strL "-1") false).1 = .error eDir
    ∧ eDir ≠ eCus := by
  exact ⟨by decide, by decide, by decide, by decide, by decide⟩

/-- C2 (amended): when direct and custom lookups failed and the search
returns an empty list, the surfaced error is the custom-id error if the
parser recognized a truthy (nonempty) custom prefix, and the direct-lookup
error otherwise (an empty-string prefix key behaves as unrecognized). -/
theorem C2_empty_search_error (cfg : Config) (be : Backend) (ref : Str)
    (inc : Bool) (eD eC : APIError)
    (hD : be.request_get_task (parse_task_id ref (some cfg.id_patterns)).1
        (get_task_params inc false none) = .error eD)
    (hC : be.request_get_task (parse_task_id ref (some cfg.id_patterns)).1
        (get_task_params inc true
          (pyOrStr cfg.default_team_id cfg.default_workspace_id)) = .error eC)
    (hS : be.search_tasks ref = .ok [])
    (hcond : (optTruthy (parse_task_id ref (some cfg.id_patterns)).2 ||
        (parse_task_id ref (some cfg.id_patterns)).1.contains '-') = true) :
    (resolve_task_id cfg be ref inc).1 =
      .error (if optTruthy (parse_task_id ref (some cfg.id_patterns)).2 = true
              then eC else eD) := by
  unfold resolve_task_id
  dsimp only
  rw [hD]
  simp only [hcond, if_true]
  rw [hC, hS]

/-- C2 witness: recognized prefix, empty search, custom error surfaced. -/
theorem C2_empty_search_error_w :
    (resolve_task_id cfgGH beFail (strL "gh-77") false).1 = .error eCus := by
  have h := C2_empty_search_error cfgGH beFail (strL "gh-77") false eDir eCus
    (by rfl) (by rfl) (by rfl) (by decide)
  rw [h]
  decide

/-- C4: when the search fallback returns a non-empty list, the resolver
returns (without error) the first result whose custom_id equals the raw
reference exactly, and the first result of the list when no result
matches exactly. -/
theorem C4_search_selection (cfg : Config) (be : Backend) (ref : Str)
    (inc : Bool) (eD eC : APIError) (t0 : Task) (rest : List Task)
    (hD : be.request_get_task (parse_task_id ref (some cfg.id_patterns)).1
        (get_task_params inc false none) = .error eD)
    (hcond : (optTruthy (parse_task_id ref (some cfg.id_patterns)).2 ||
        (parse_task_id ref (some cfg.id_patterns)).1.contains '-') = true)
    (hC : be.request_get_task (parse_task_id ref (some cfg.id_patterns)).1
        (get_task_params inc true
          (pyOrStr cfg.default_team_id cfg.default_workspace_id)) = .error eC)
    (hS : be.search_tasks ref = .ok (t0 :: rest)) :
    (resolve_task_id cfg be ref inc).1 =
      .ok (((t0 :: rest).find? (fun t => t.custom_id == some ref)).getD t0) := by
  unfold resolve_task_id
  dsimp only
  rw [hD]
  simp only [hcond, if_true]
  rw [hC, hS]
  cases hf : (t0 :: rest).find? (fun t => t.custom_id == some ref) <;>
    simp [hf]

/-- C4 witness: the spec's scenario with the exact match listed second. -/
theorem C4_search_selection_w :
    (resolve_task_id cfgGH beSearch2 (strL "gh-123") false).1 = .ok taskX1 := by
  have h := C4_search_selection cfgGH beSearch2 (strL "gh-123") false eDir eDir
    taskX2 [taskX1] (by rfl) (by decide) (by rfl) (by rfl)
  rw [h]
  decide

/-- C5: each collaborator operation is invoked at most once and in the
fixed order direct, custom, search (the trace is a prefix of that chain);
the custom lookup runs only after the direct one failed and the search
only after the custom one failed; whenever the parser produced a truthy
custom tag (in particular for prefix-digits references with the prefix in
the table) or the candidate contains '-', a failed direct lookup is
followed by the custom lookup with the configured scope; and the direct
and custom requests are distinct operations (only the latter carries the
custom_task_ids flag). -/
theorem C5_strategy_chain (cfg : Config) (be : Backend) (ref : Str) (inc : Bool) :
    ((resolve_task_id cfg be ref inc).2 = [directCall cfg ref inc]
      ∨ (resolve_task_id cfg be ref inc).2 =
          [directCall cfg ref inc, customCall cfg ref inc]
      ∨ (resolve_task_id cfg be ref inc).2 =
          [directCall cfg ref inc, customCall cfg ref inc, searchCall ref])
    ∧ ((resolve_task_id cfg be ref inc).2 ≠ [directCall cfg ref inc] →
        ∃ e, be.request_get_task (parse_task_id ref (some cfg.id_patterns)).1
          (get_task_params inc false none) = .error e)
    ∧ ((resolve_task_id cfg be ref inc).2 =
          [directCall cfg ref inc, customCall cfg ref inc, searchCall ref] →
        ∃ e, be.request_get_task (parse_task_id ref (some cfg.id_patterns)).1
          (get_task_params inc true
            (pyOrStr cfg.default_team_id cfg.default_workspace_id)) = .error e)
    ∧ ((optTruthy (parse_task_id ref (some cfg.id_patterns)).2 ||
          (parse_task_id ref (some cfg.id_patterns)).1.contains '-') = true →
        (∃ e, be.request_get_task (parse_task_id ref (some cfg.id_patterns)).1
          (get_task_params inc false none) = .error e) →
        (resolve_task_id cfg be ref inc).2 =
            [directCall cfg ref inc, customCall cfg ref inc]
        ∨ (resolve_task_id cfg be ref inc).2 =
            [directCall cfg ref inc, customCall cfg ref inc, searchCall ref])
    ∧ List.lookup (strL "custom_task_ids") (get_task_params inc false none) = none
    ∧ List.lookup (strL "custom_task_ids")
        (get_task_params inc true
          (pyOrStr cfg.default_team_id cfg.default_workspace_id)) =
        some (strL "true") := by
  have hdps : List.lookup (strL "custom_task_ids")
      (get_task_params inc false none) = none := by cases inc <;> rfl
  have hcps : List.lookup (strL "custom_task_ids")
      (get_task_params inc true
        (pyOrStr cfg.default_team_id cfg.default_workspace_id)) =
      some (strL "true") := by cases inc <;> rfl
  unfold resolve_task_id directCall customCall searchCall
  dsimp only
  cases hd : be.request_get_task (parse_task_id ref (some cfg.id_patterns)).1
      (get_task_params inc false none) with
  | ok t =>
    dsimp only
    refine ⟨Or.inl rfl, fun hne => absurd rfl hne,
      fun h3 => absurd (congrArg List.length h3) (by simp),
      fun _ h => ?_, hdps, hcps⟩
    obtain ⟨e, he⟩ := h
    exact Except.noConfusion he
  | error a =>
    dsimp only
    cases hb : (optTruthy (parse_task_id ref (some cfg.id_patterns)).2 ||
        (parse_task_id ref (some cfg.id_patterns)).1.contains '-') with
    | false =>
      rw [if_neg (fun hh => Bool.noConfusion hh)]
      exact ⟨Or.inl rfl, fun _ => ⟨a, rfl⟩,
        fun h3 => absurd (congrArg List.length h3) (by simp),
        fun h _ => Bool.noConfusion h, hdps, hcps⟩
    | true =>
      rw [if_pos rfl]
      cases hc : be.request_get_task (parse_task_id ref (some cfg.id_patterns)).1
          (get_task_params inc true
            (pyOrStr cfg.default_team_id cfg.default_workspace_id)) with
      | ok t =>
        dsimp only
        exact ⟨Or.inr (Or.inl rfl), fun _ => ⟨a, rfl⟩,
          fun h3 => absurd (congrArg List.length h3) (by simp),
          fun _ _ => Or.inl rfl, hdps, hcps⟩
      | error b =>
        dsimp only
        cases hs : be.search_tasks ref with
        | error c =>
          dsimp only
          exact ⟨Or.inr (Or.inr rfl), fun _ => ⟨a, rfl⟩, fun _ => ⟨b, rfl⟩,
            fun _ _ => Or.inr rfl, hdps, hcps⟩
        | ok l =>
          cases l with
          | nil =>
            dsimp only
            exact ⟨Or.inr (Or.inr rfl), fun _ => ⟨a, rfl⟩, fun _ => ⟨b, rfl⟩,
              fun _ _ => Or.inr rfl, hdps, hcps⟩
          | cons t0 rest =>
            dsimp only
            cases hf : (t0 :: rest).find? (fun t => t.custom_id == some ref) with
            | some t =>
              refine ⟨Or.inr (Or.inr ?_), fun _ => ⟨a, rfl⟩, fun _ => ⟨b, rfl⟩,
                fun _ _ => Or.inr ?_, hdps, hcps⟩ <;> simp [hf]
            | none =>
              refine ⟨Or.inr (Or.inr ?_), fun _ => ⟨a, rfl⟩, fun _ => ⟨b, rfl⟩,
                fun _ _ => Or.inr ?_, hdps, hcps⟩ <;> simp [hf]

/-- C5 witness: on the all-failing backend with a recognized prefix the
trace is exactly direct, custom, search. -/
theorem C5_strategy_chain_w :
    (resolve_task_id cfgGH beFail (strL "gh-5") false).2 =
      [directCall cfgGH (strL "gh-5") false, customCall cfgGH (strL "gh-5") false,
       searchCall (strL "gh-5")]
    ∧ (∃ e, beFail.request_get_task
        (parse_task_id (strL "gh-5") (some cfgGH.id_patterns)).1
        (get_task_params false true
          (pyOrStr cfgGH.default_team_id cfgGH.default_workspace_id)) = .error e) := by
  have h := C5_strategy_chain cfgGH beFail (strL "gh-5") false
  have htr : (resolve_task_id cfgGH beFail (strL "gh-5") false).2 =
      [directCall cfgGH (strL "gh-5") false, customCall cfgGH (strL "gh-5") false,
       searchCall (strL "gh-5")] := by decide
  exact ⟨htr, h.2.2.1 htr⟩

/-- C9: when internal resolution fails with ClickUpAPIError, the get_task
tool returns (rather than raises) the error record embedding the original
reference and the error message, and returns no task fields. -/
theorem C9_tool_wraps_api_error (cfg : Config) (be : Backend) (ref : Str)
    (inc : Bool) (e : APIError)
    (h : (resolve_task_id cfg be ref inc).1 = .error e) :
    tools_get_task cfg be ref inc =
      .errDict (strL "Failed to get task '" ++ ref ++ strL "': " ++ e.message)
    ∧ ∀ t, tools_get_task cfg be ref inc ≠ .taskDict t := by
  unfold tools_get_task
  rw [h]
  exact ⟨rfl, fun t h2 => nomatch h2⟩

/-- C9 witness: the wrapped message for a plain missing id. -/
theorem C9_tool_wraps_api_error_w :
    tools_get_task cfgGH beFail (strL "zzz") false =
      .errDict (strL "Failed to get task 'zzz': API error: 404 - direct not found") := by
  have h := (C9_tool_wraps_api_error cfgGH beFail (strL "zzz") false eDir (by rfl)).1
  rw [h]
  decide

/-- C10: whenever the custom-id strategy runs, its scope identifier is the
configured default team id when truthy, else the default workspace id; and
when neither is configured the lookup still runs with the team_id
parameter omitted from the request. -/
theorem C10_custom_scope (cfg : Config) (be : Backend) (ref : Str)
    (inc : Bool) (eD : APIError)
    (hD : be.request_get_task (parse_task_id ref (some cfg.id_patterns)).1
        (get_task_params inc false none) = .error eD)
    (hcond : (optTruthy (parse_task_id ref (some cfg.id_patterns)).2 ||
        (parse_task_id ref (some cfg.id_patterns)).1.contains '-') = true) :
    ((resolve_task_id cfg be ref inc).2)[1]? =
        some (Call.getTaskReq (parse_task_id ref (some cfg.id_patterns)).1
          (get_task_params inc true
            (pyOrStr cfg.default_team_id cfg.default_workspace_id)))
    ∧ (∀ t, cfg.default_team_id = some t → t ≠ [] →
        pyOrStr cfg.default_team_id cfg.default_workspace_id = some t)
    ∧ (optTruthy cfg.default_team_id = false →
        pyOrStr cfg.default_team_id cfg.default_workspace_id =
          cfg.default_workspace_id)
    ∧ (cfg.default_team_id = none → cfg.default_workspace_id = none →
        List.lookup (strL "team_id")
          (get_task_params inc true
            (pyOrStr cfg.default_team_id cfg.default_workspace_id)) = none) := by
  refine ⟨?_, ?_, ?_, ?_⟩
  · unfold resolve_task_id
    dsimp only
    rw [hD]
    simp only [hcond, if_true]
    cases hc : be.request_get_task (parse_task_id ref (some cfg.id_patterns)).1
        (get_task_params inc true
          (pyOrStr cfg.default_team_id cfg.default_workspace_id)) with
    | ok t => rfl
    | error b =>
      cases hs : be.search_tasks ref with
      | error c => rfl
      | ok l =>
        cases l with
        | nil => rfl
        | cons t0 rest =>
          cases hf : (t0 :: rest).find? (fun t => t.custom_id == some ref) <;>
            simp [hf]
  · intro t ht hne
    simp [pyOrStr, ht, hne]
  · intro h
    cases hteam : cfg.default_team_id with
    | none => rfl
    | some t =>
      rw [hteam] at h
      simp only [optTruthy, Bool.not_eq_false'] at h
      have ht : t = [] := List.isEmpty_iff.mp h
      simp [pyOrStr, ht]
  · intro h1 h2
    rw [h1, h2]
    cases inc <;> rfl

/-- C10 witness: with neither team nor workspace configured the custom
lookup still runs with no team_id parameter. -/
theorem C10_custom_scope_w :
    ((resolve_task_id cfgGH beFail (strL "gh-1") false).2)[1]? =
      some (Call.getTaskReq (strL "gh-1") (get_task_params false true none))
    ∧ List.lookup (strL "team_id")
        (get_task_params false true
          (pyOrStr cfgGH.default_team_id cfgGH.default_workspace_id)) = none := by
  have h := C10_custom_scope cfgGH beFail (strL "gh-1") false eDir (by rfl) (by decide)
  refine ⟨?_, h.2.2.2 rfl rfl⟩
  rw [h.1]
  decide

end ClickupMCP
